import Mathlib

/-!
The two pi-promise frontends as event handlers over explicit state.

The repository holds two single-page frontends.

* `src/frontend/main.js` (the no-auth variant) writes into a handful of DOM
  elements from promise chains of the form
  `fetch(..).then(res => res.json()).then(data => ..).catch(err => console.error(..))`.
* `src/pi_promise_piapi_ready/frontend/src/main.jsx` (the token variant) is a
  React component whose `async` handlers update its `useState` cells and
  one `localStorage` entry.

Every handler suspends exactly at its network request.  A handler is embedded
as a function from the state at resumption and the outcome of the request to
the new state and the list of effects (requests issued, alerts, console
logs) it performs, in program order.  A JavaScript exception is modelled
with `Option`/`Except`: an `async` function that throws rejects its promise
and performs none of its remaining statements.

JavaScript values are the values `JSON.parse` can produce.  A number is a
double: a safe integer is kept as an integer and printed in decimal; any
other number is kept as the text `Number::toString` gives for it, which is
all the handlers ever do with it.
-/

namespace PiPromise

/-! ## JavaScript values -/

/-- A JavaScript number as `JSON.parse` produces it.

* `int n` is a safe integer, of magnitude at most `2^53 - 1` (negative zero
  counts as `0`: it prints as "0" and is falsy).
* `other text` is any other finite number (a fraction, or a magnitude beyond
  the safe range), given by its `Number::toString` text, such as "1.5" or
  "1e+21".
* `infinity negative` is what a literal too large for a double parses to. -/
inductive JsNumber where
  | int (n : Int) (safe : n.natAbs ≤ 9007199254740991) : JsNumber
  | other (text : String) : JsNumber
  | infinity (negative : Bool) : JsNumber

/-- String conversion `Number::toString` of a number. -/
def numberToString : JsNumber → String
  | .int n _ => toString n
  | .other text => text
  | .infinity negative => if negative then "-Infinity" else "Infinity"

/-- What `JSON.stringify` writes for a number: its string conversion when it
is finite, and `null` otherwise. -/
def numberToJson : JsNumber → String
  | .int n _ => toString n
  | .other text => text
  | .infinity _ => "null"

/-- Whether a number is zero, the only falsy number `JSON.parse` produces. -/
def numberIsZero : JsNumber → Bool
  | .int n _ => n == 0
  | .other _ => false
  | .infinity _ => false

/-- A value produced by `res.json()`.  An object lists its own properties in
enumeration order. -/
inductive Json where
  | null : Json
  | bool (b : Bool) : Json
  | num (x : JsNumber) : Json
  | str (s : String) : Json
  | arr (xs : List Json) : Json
  | obj (kvs : List (String × Json)) : Json

/-- A thrown JavaScript exception; the handlers never inspect it. -/
inductive JsError where
  | typeError : JsError
  deriving DecidableEq, Repr

/-- Own-property lookup in an object's property list. -/
def lookupKey (k : String) : List (String × Json) → Option Json
  | [] => none
  | (k', v) :: rest => if k' = k then some v else lookupKey k rest

/-- Property read `v.k` for a key `k` that no built-in prototype defines
(`token`, `detail`, `name`, `coins`, ...): `none` is `undefined`; reading a
property of `null` throws a `TypeError`. -/
def getProp (v : Json) (k : String) : Except JsError (Option Json) :=
  match v with
  | .null => .error .typeError
  | .obj kvs => .ok (lookupKey k kvs)
  | _ => .ok none

/-- JavaScript truthiness (`ToBoolean`); `none` is `undefined`. -/
def truthy : Option Json → Bool
  | none => false
  | some .null => false
  | some (.bool b) => b
  | some (.num x) => !numberIsZero x
  | some (.str s) => s != ""
  | some (.arr _) => true
  | some (.obj _) => true

mutual
/-- String conversion `ToString(v)` as performed by template literals, by `+`
with a string operand and by a `DOMString` argument.  `none` is a thrown
`TypeError`: an object with an own `toString` property (never callable in
parsed JSON) has no primitive value. -/
def toStr : Json → Option String
  | .null => some "null"
  | .bool b => some (if b then "true" else "false")
  | .num x => some (numberToString x)
  | .str s => some s
  | .arr xs => joinStr xs
  | .obj kvs => if (lookupKey "toString" kvs).isSome then none else some "[object Object]"
/-- The `Array.prototype.join(",")` of an array, which is its `toString`. -/
def joinStr : List Json → Option String
  | [] => some ""
  | [x] => elemStr x
  | x :: y :: rest =>
    match elemStr x, joinStr (y :: rest) with
    | some a, some b => some (a ++ "," ++ b)
    | _, _ => none
/-- One element inside `join`: `null` contributes the empty string. -/
def elemStr : Json → Option String
  | .null => some ""
  | .bool b => some (if b then "true" else "false")
  | .num x => some (numberToString x)
  | .str s => some s
  | .arr xs => joinStr xs
  | .obj kvs => if (lookupKey "toString" kvs).isSome then none else some "[object Object]"
end

/-- String conversion of a possibly `undefined` value. -/
def toStrU : Option Json → Option String
  | none => some "undefined"
  | some v => toStr v

/-- Lower-case hexadecimal digit of a number below sixteen. -/
def hexDigit (n : Nat) : Char :=
  if n < 10 then Char.ofNat (48 + n) else Char.ofNat (87 + n)

/-- One character inside a JSON string literal (`QuoteJSONString`): the
quote and the backslash are escaped, control characters use their short
escape when there is one and a four-digit unicode escape otherwise. -/
def escapeChar (c : Char) : String :=
  let bs := String.singleton (Char.ofNat 92)
  if c.toNat = 34 then bs ++ String.singleton (Char.ofNat 34)
  else if c.toNat = 92 then bs ++ bs
  else if c.toNat = 8 then bs ++ "b"
  else if c.toNat = 9 then bs ++ "t"
  else if c.toNat = 10 then bs ++ "n"
  else if c.toNat = 12 then bs ++ "f"
  else if c.toNat = 13 then bs ++ "r"
  else if c.toNat < 32 then
    bs ++ "u00" ++ String.singleton (hexDigit (c.toNat / 16))
      ++ String.singleton (hexDigit (c.toNat % 16))
  else String.singleton c

/-- A string as a JSON string literal. -/
def quoteJson (s : String) : String :=
  "\"" ++ String.join (s.toList.map escapeChar) ++ "\""

mutual
/-- Serialisation `JSON.stringify(v)` of a parsed JSON value. -/
def jsonStringify : Json → String
  | .null => "null"
  | .bool b => if b then "true" else "false"
  | .num x => numberToJson x
  | .str s => quoteJson s
  | .arr xs => "[" ++ stringifyElems xs ++ "]"
  | .obj kvs => "\x7b" ++ stringifyProps kvs ++ "\x7d"
/-- The comma-separated elements of an array. -/
def stringifyElems : List Json → String
  | [] => ""
  | [x] => jsonStringify x
  | x :: y :: rest => jsonStringify x ++ "," ++ stringifyElems (y :: rest)
/-- The comma-separated properties of an object. -/
def stringifyProps : List (String × Json) → String
  | [] => ""
  | [(k, v)] => quoteJson k ++ ":" ++ jsonStringify v
  | (k, v) :: p :: rest =>
    quoteJson k ++ ":" ++ jsonStringify v ++ "," ++ stringifyProps (p :: rest)
end

/-! ## The network and the effects of a handler -/

/-- An HTTP response as the handlers see it: the status code, and what
`res.json()` resolves to (`none` when the body is not JSON and the promise
rejects). -/
structure Response where
  status : Nat
  body : Option Json

/-- The `ok` flag of a response: the status is in the range 200 to 299. -/
def Response.ok (res : Response) : Bool :=
  decide (200 ≤ res.status ∧ res.status ≤ 299)

/-- Outcome of `fetch`: the promise rejects (network failure) or resolves to
a response. -/
inductive FetchResult where
  | failed : FetchResult
  | response (res : Response) : FetchResult

/-- A request handed to `fetch`. -/
structure Request where
  method : String
  url : String
  headers : List (String × String)
  body : Option String
  deriving DecidableEq, Repr

/-- An observable action of a handler. -/
inductive Effect where
  | fetch (req : Request) : Effect
  | alert (message : String) : Effect
  | consoleError (text : String) : Effect
  deriving DecidableEq, Repr

/-- The request of `fetch(url)`. -/
def getRequest (url : String) : Request :=
  ⟨"GET", url, [], none⟩

/-- The request of `fetch(url, {method:"POST"})`. -/
def postRequest (url : String) : Request :=
  ⟨"POST", url, [], none⟩

/-! ## Token variant: `pi_promise_piapi_ready/frontend/src/main.jsx` -/

/-- Browser local storage: its entries, in insertion order. -/
abbrev Storage := List (String × String)

/-- Lookup `localStorage.getItem(k)`; `none` is `null`. -/
def getItem (k : String) : Storage → Option String
  | [] => none
  | (k', v) :: rest => if k' = k then some v else getItem k rest

/-- Update `localStorage.setItem(k, v)`: overwrite the entry, or add one. -/
def setItem (k v : String) : Storage → Storage
  | [] => [(k, v)]
  | (k', v') :: rest => if k' = k then (k, v) :: rest else (k', v') :: setItem k v rest

/-- The base URL `import.meta.env.VITE_API_URL || "http://localhost:8000"`. -/
def API (viteApiUrl : Option String) : String :=
  match viteApiUrl with
  | some u => if u != "" then u else "http://localhost:8000"
  | none => "http://localhost:8000"

/-- State of `App`: the five `useState` cells and the browser's local
storage.  `token`, `msg` and `me` hold whatever JavaScript value was last
passed to their setter. -/
structure AppState where
  localStorage : Storage
  token : Json
  piName : String
  proof : String
  msg : Json
  me : Json

/-- First render of `App`: the initial values of the `useState` cells.  The
component registers no effect hook, so mounting issues no request. -/
def App.init (ls : Storage) : AppState × List Effect :=
  ({ localStorage := ls
     -- useState(localStorage.getItem("pip_token")||"")
     token := match getItem "pip_token" ls with
       | some t => if t != "" then .str t else .str ""
       | none => .str ""
     piName := ""
     proof := ""
     msg := .str ""
     -- useState(null)
     me := .null }, [])

/-- The guard `token && me` under which the "Connected as .." block with the
Mine and View Ad buttons is rendered: the view is Authenticated. -/
def authenticated (s : AppState) : Bool :=
  truthy (some s.token) && truthy (some s.me)

mutual
/-- Whether React accepts a value as a child: a string or a number is
rendered as text, a boolean or `null` as nothing, an array element by
element, and a plain object makes the render throw. -/
def renderable : Json → Bool
  | .null => true
  | .bool _ => true
  | .num _ => true
  | .str _ => true
  | .arr xs => renderableAll xs
  | .obj _ => false
/-- Whether React accepts every element of an array of children. -/
def renderableAll : List Json → Bool
  | [] => true
  | x :: rest => renderable x && renderableAll rest
end

/-- A possibly `undefined` child; `undefined` renders nothing. -/
def renderableU : Option Json → Bool
  | none => true
  | some v => renderable v

/-- Whether rendering `App` from `s` throws, which unmounts the whole page.
The children taken from the state are `{msg}` and, inside the block guarded
by `token && me`, `{me.pi_name}` and `{me.coins}` (`flagged` and `blocked`
only choose between "yes" and "no").  When the guard fails the child is the
falsy value itself, which is never an object. -/
def App.renderThrows (s : AppState) : Bool :=
  !renderable s.msg ||
    (authenticated s &&
      match getProp s.me "pi_name", getProp s.me "coins" with
      | .ok name, .ok coins => !(renderableU name && renderableU coins)
      | _, _ => true)

/-- Call `fetchMe(tok)` up to its `await`: the request it issues.  A token
whose string conversion throws rejects the promise of `fetchMe`, which no
caller awaits, and no request is made. -/
def fetchMe (api : String) (tok : Json) : List Effect :=
  match toStr tok with
  | some u => [.fetch (getRequest (api ++ "/me?token=" ++ u))]
  | none => []

/-- Resumption of `fetchMe` when its request settles:
`if(r.ok){ setMe(await r.json()) } else setMsg("Session invalid")`. -/
def fetchMeCont (s : AppState) (r : FetchResult) : AppState × List Effect :=
  match r with
  | .failed => (s, [])
  | .response res =>
    if res.ok then
      match res.body with
      | none => (s, [])
      | some j => ({ s with me := j }, [])
    else ({ s with msg := .str "Session invalid" }, [])

/-- Click on "Connect with Pi", up to the first `await`: the POST to
`/auth/pi` carrying `JSON.stringify({pi_name: piName, proof: proof})`. -/
def connectPi (api : String) (s : AppState) : List Effect :=
  [.fetch ⟨"POST", api ++ "/auth/pi", [("Content-Type", "application/json")],
    some (jsonStringify (.obj [("pi_name", .str s.piName), ("proof", .str s.proof)]))⟩]

/-- The failure branch of `connectPi`:
`setMsg("Connect failed: " + (j.detail || JSON.stringify(j)))`. -/
def connectFailed (s : AppState) (j : Json) : AppState × List Effect :=
  match getProp j "detail" with
  | .error _ => (s, [])
  | .ok none => ({ s with msg := .str ("Connect failed: " ++ jsonStringify j) }, [])
  | .ok (some d) =>
    if truthy (some d) then
      match toStr d with
      | some text => ({ s with msg := .str ("Connect failed: " ++ text) }, [])
      | none => (s, [])
    else ({ s with msg := .str ("Connect failed: " ++ jsonStringify j) }, [])

/-- Resumption of `connectPi` when `/auth/pi` settles: `j = await res.json()`,
then `if(res.ok && j.token){ localStorage.setItem("pip_token", j.token);
setToken(j.token); setMsg("Connected"); fetchMe(j.token) } else { .. }`. -/
def connectPiCont (api : String) (s : AppState) (r : FetchResult) : AppState × List Effect :=
  match r with
  | .failed => (s, [])
  | .response res =>
    match res.body with
    | none => (s, [])
    | some j =>
      if res.ok then
        match getProp j "token" with
        | .error _ => (s, [])
        | .ok none => connectFailed s j
        | .ok (some t) =>
          if truthy (some t) then
            match toStr t with
            | none => (s, [])
            | some text =>
              ({ s with localStorage := setItem "pip_token" text s.localStorage
                        token := t
                        msg := .str "Connected" }, fetchMe api t)
          else connectFailed s j
      else connectFailed s j

/-- Click on "Mine", up to the `await`: the POST to `/mine` with the token of
the render the click happened in. -/
def mine (api : String) (s : AppState) : List Effect :=
  match toStr s.token with
  | some u => [.fetch (postRequest (api ++ "/mine?token=" ++ u))]
  | none => []

/-- Resumption of `mine` with the token `tok` its closure captured:
`j = await r.json(); if(j.detail) setMsg(j.detail);
else { setMsg("Mined 100 coins"); fetchMe(token) }`. -/
def mineCont (api : String) (tok : Json) (s : AppState) (r : FetchResult) :
    AppState × List Effect :=
  match r with
  | .failed => (s, [])
  | .response res =>
    match res.body with
    | none => (s, [])
    | some j =>
      match getProp j "detail" with
      | .error _ => (s, [])
      | .ok none => ({ s with msg := .str "Mined 100 coins" }, fetchMe api tok)
      | .ok (some d) =>
        if truthy (some d) then ({ s with msg := d }, [])
        else ({ s with msg := .str "Mined 100 coins" }, fetchMe api tok)

/-- Click on "View Ad", up to the `await`: the POST to `/view_ad`. -/
def viewAd (api : String) (s : AppState) : List Effect :=
  match toStr s.token with
  | some u => [.fetch (postRequest (api ++ "/view_ad?token=" ++ u))]
  | none => []

/-- Resumption of `viewAd` with the token `tok` its closure captured:
`j = await r.json(); if(j.detail) setMsg(j.detail);
else { setMsg("Ad viewed +5"); fetchMe(token) }`. -/
def viewAdCont (api : String) (tok : Json) (s : AppState) (r : FetchResult) :
    AppState × List Effect :=
  match r with
  | .failed => (s, [])
  | .response res =>
    match res.body with
    | none => (s, [])
    | some j =>
      match getProp j "detail" with
      | .error _ => (s, [])
      | .ok none => ({ s with msg := .str "Ad viewed +5" }, fetchMe api tok)
      | .ok (some d) =>
        if truthy (some d) then ({ s with msg := d }, [])
        else ({ s with msg := .str "Ad viewed +5" }, fetchMe api tok)

/-! ## No-auth variant: `frontend/main.js` -/

/-- The constant `API_BASE_URL`. -/
def API_BASE_URL : String := "https://pi-promise.onrender.com"

/-- A child node of the leaderboard element: its tag and its text. -/
structure Node where
  tag : String
  text : String
  deriving DecidableEq, Repr

/-- The parts of the page the script writes to.  The page itself is not part
of the repository; every element the script looks up by id is taken to
exist. -/
structure Dom where
  /-- Text of `#user-name`. -/
  userName : String
  /-- Text of `#user-rank`. -/
  userRank : String
  /-- Text of `#user-coins`. -/
  userCoins : String
  /-- The `src` of `#user-avatar`. -/
  userAvatar : String
  /-- Children of `#leaderboard`. -/
  leaderboard : List Node
  /-- Text of `#ads-watched`. -/
  adsWatched : String
  deriving DecidableEq, Repr

/-- The text a `textContent = v` assignment stores: `undefined` and `null`
give the empty text, any other value its string conversion. -/
def textContentOf : Option Json → Option String
  | none => some ""
  | some .null => some ""
  | some v => toStr v

/-- Call `fetchUserProfile()`: the request it issues. -/
def fetchUserProfile : List Effect :=
  [.fetch (getRequest (API_BASE_URL ++ "/api/user"))]

/-- Call `fetchLeaderboard()`: the request it issues. -/
def fetchLeaderboard : List Effect :=
  [.fetch (getRequest (API_BASE_URL ++ "/api/leaderboard"))]

/-- The `DOMContentLoaded` listener: both fetches are started (and the two
click listeners registered). -/
def onDOMContentLoaded : List Effect :=
  fetchUserProfile ++ fetchLeaderboard

/-- The avatar branch of the profile callback:
`if (data.avatar) { .src = data.avatar } else
{ .src = data.gender === "female" ? "avatar_female.png" : "avatar_male.png" }`. -/
def avatarSrc (data : Json) : Option String :=
  match getProp data "avatar" with
  | .error _ => none
  | .ok a =>
    if truthy a then toStrU a
    else
      match getProp data "gender" with
      | .error _ => none
      | .ok (some (.str g)) => some (if g = "female" then "avatar_female.png" else "avatar_male.png")
      | .ok _ => some "avatar_male.png"

/-- The `.then(data => ..)` callback of `fetchUserProfile`, statement by
statement: the DOM reached, and whether a statement threw. -/
def renderProfile (d : Dom) (data : Json) : Dom × Bool :=
  -- document.getElementById("user-name").textContent = data.name;
  match (getProp data "name").toOption.bind textContentOf with
  | none => (d, true)
  | some name =>
    let d1 := { d with userName := name }
    -- document.getElementById("user-rank").textContent = (template) Rank: ${data.rank}
    match (getProp data "rank").toOption.bind toStrU with
    | none => (d1, true)
    | some rank =>
      let d2 := { d1 with userRank := "Rank: " ++ rank }
      -- document.getElementById("user-coins").textContent = (template) Coins: ${data.coins}
      match (getProp data "coins").toOption.bind toStrU with
      | none => (d2, true)
      | some coins =>
        let d3 := { d2 with userCoins := "Coins: " ++ coins }
        match avatarSrc data with
        | none => (d3, true)
        | some src => ({ d3 with userAvatar := src }, false)

/-- Resumption of `fetchUserProfile` when `/api/user` settles; every
rejection and every exception ends in the `.catch` logger. -/
def fetchUserProfileCont (d : Dom) (r : FetchResult) : Dom × List Effect :=
  match r with
  | .failed => (d, [.consoleError "Error fetching user profile:"])
  | .response res =>
    match res.body with
    | none => (d, [.consoleError "Error fetching user profile:"])
    | some data =>
      match renderProfile d data with
      | (d1, true) => (d1, [.consoleError "Error fetching user profile:"])
      | (d1, false) => (d1, [])

/-- Text of one leaderboard item, (template) `${user.name} - ${user.coins} coins`;
`none` when reading a property of the entry or converting it throws. -/
def entryText (user : Json) : Option String :=
  match (getProp user "name").toOption.bind toStrU with
  | none => none
  | some name =>
    match (getProp user "coins").toOption.bind toStrU with
    | none => none
    | some coins => some (name ++ " - " ++ coins ++ " coins")

/-- The loop `data.forEach(user => { li = createElement("li");
li.textContent = ..; lb.appendChild(li) })` over the entries, from the
children `lb` already there: the children reached, and whether an entry
threw (which ends the loop). -/
def appendEntries (lb : List Node) : List Json → List Node × Bool
  | [] => (lb, false)
  | user :: rest =>
    match entryText user with
    | none => (lb, true)
    | some text => appendEntries (lb ++ [⟨"li", text⟩]) rest

/-- Resumption of `fetchLeaderboard` when `/api/leaderboard` settles:
`lb.innerHTML = ""` first, then the loop; `data.forEach` is only callable
on an array. -/
def fetchLeaderboardCont (d : Dom) (r : FetchResult) : Dom × List Effect :=
  match r with
  | .failed => (d, [.consoleError "Error fetching leaderboard:"])
  | .response res =>
    match res.body with
    | none => (d, [.consoleError "Error fetching leaderboard:"])
    | some (.arr entries) =>
      match appendEntries [] entries with
      | (lb, true) => ({ d with leaderboard := lb }, [.consoleError "Error fetching leaderboard:"])
      | (lb, false) => ({ d with leaderboard := lb }, [])
    | some _ => ({ d with leaderboard := [] }, [.consoleError "Error fetching leaderboard:"])

/-- Click on the mine button: the POST to `/api/mine`. -/
def startMining : List Effect :=
  [.fetch (postRequest (API_BASE_URL ++ "/api/mine"))]

/-- Resumption of `startMining`: `alert(data.message); fetchUserProfile();`. -/
def startMiningCont (d : Dom) (r : FetchResult) : Dom × List Effect :=
  match r with
  | .failed => (d, [.consoleError "Error starting mining:"])
  | .response res =>
    match res.body with
    | none => (d, [.consoleError "Error starting mining:"])
    | some data =>
      match (getProp data "message").toOption.bind toStrU with
      | none => (d, [.consoleError "Error starting mining:"])
      | some m => (d, .alert m :: fetchUserProfile)

/-- Click on the watch-ad button: the POST to `/api/watch-ad`. -/
def watchAd : List Effect :=
  [.fetch (postRequest (API_BASE_URL ++ "/api/watch-ad"))]

/-- Resumption of `watchAd`: `alert(data.message);` then
`#ads-watched`.textContent = (template) `Ads Watched: ${data.adsWatched} / 5`, then
`fetchUserProfile();`. -/
def watchAdCont (d : Dom) (r : FetchResult) : Dom × List Effect :=
  match r with
  | .failed => (d, [.consoleError "Error watching ad:"])
  | .response res =>
    match res.body with
    | none => (d, [.consoleError "Error watching ad:"])
    | some data =>
      match (getProp data "message").toOption.bind toStrU with
      | none => (d, [.consoleError "Error watching ad:"])
      | some m =>
        match (getProp data "adsWatched").toOption.bind toStrU with
        | none => (d, [.alert m, .consoleError "Error watching ad:"])
        | some n =>
          ({ d with adsWatched := "Ads Watched: " ++ n ++ " / 5" }, .alert m :: fetchUserProfile)

/-! ## Sample states and responses -/

/-- A session established earlier: token stored and in memory, profile shown. -/
def connectedState : AppState :=
  { localStorage := [("pip_token", "old")]
    token := .str "old"
    piName := "ann"
    proof := "sig"
    msg := .str "Connected"
    me := .obj [("pi_name", .str "ann"), ("coins", .num (.int 100 (by decide))),
      ("flagged", .bool false), ("blocked", .bool false)] }

/-- A fresh page with the two inputs filled in. -/
def anonymousState : AppState :=
  { localStorage := []
    token := .str ""
    piName := "ann"
    proof := "sig"
    msg := .str ""
    me := .null }

/-- A body of unforeseen shape: no token, no detail. -/
def oddBody : Json :=
  .obj [("error", .str "no"), ("code", .num (.int 7 (by decide)))]

/-- A rejection carrying a `detail` message. -/
def rejection (status : Nat) (detail : String) : Response :=
  ⟨status, some (.obj [("detail", .str detail)])⟩

/-- A page before any response has arrived, with a stale leaderboard. -/
def stalePage : Dom :=
  { userName := ""
    userRank := ""
    userCoins := ""
    userAvatar := ""
    leaderboard := [⟨"li", "Zed - 1 coins"⟩]
    adsWatched := "" }

/-- A page showing a profile and a leaderboard fetched earlier. -/
def shownPage : Dom :=
  { userName := "Alice"
    userRank := "Rank: 3"
    userCoins := "Coins: 120"
    userAvatar := "avatar_female.png"
    leaderboard := [⟨"li", "Bob - 300 coins"⟩, ⟨"li", "Alice - 120 coins"⟩]
    adsWatched := "Ads Watched: 2 / 5" }

/-- The profile payload of the specification's example. -/
def alice : Json :=
  .obj [("name", .str "Alice"), ("rank", .num (.int 3 (by decide))),
    ("coins", .num (.int 120 (by decide))), ("gender", .str "female")]

/-! ## Vocabulary of the statements -/

/-- The field `k` of a response body: `none` when the body has no such field,
in particular when it is not an object. -/
def field (j : Json) (k : String) : Option Json :=
  match j with
  | .obj kvs => lookupKey k kvs
  | _ => none

/-- A transport error: `fetch` itself fails, or the body is not JSON. -/
def transportError : FetchResult → Bool
  | .failed => true
  | .response res => res.body.isNone

/-- A response whose status is not 2xx. -/
def non2xx : FetchResult → Bool
  | .failed => false
  | .response res => !res.ok

/-- A `/auth/pi` outcome that is a failure: a transport error, a status that
is not 2xx, or a body whose token is missing or falsy. -/
def connectFails : FetchResult → Bool
  | .failed => true
  | .response res =>
    match res.body with
    | none => true
    | some j => !(res.ok && truthy (field j "token"))

/-- The detail of the response, if it has one, is a value React can render. -/
def detailRenders : FetchResult → Bool
  | .failed => true
  | .response res =>
    match res.body with
    | none => true
    | some j => renderableU (field j "detail")

/-- The list item expected for a leaderboard entry: an `li` reading
"name - coins coins". -/
def entryItem (p : String × JsNumber) : Node :=
  ⟨"li", p.1 ++ " - " ++ numberToString p.2 ++ " coins"⟩

/-- The payload entry `e` is a leaderboard entry with name `p.1` and coins
`p.2`. -/
def IsEntry (e : Json) (p : String × JsNumber) : Prop :=
  field e "name" = some (.str p.1) ∧ field e "coins" = some (.num p.2)

/-! ## Basic facts -/

theorem getProp_obj (kvs : List (String × Json)) (k : String) :
    getProp (.obj kvs) k = .ok (lookupKey k kvs) := rfl

theorem getProp_of_field_some {j : Json} {k : String} {v : Json}
    (h : field j k = some v) : getProp j k = .ok (some v) := by
  cases j <;> simp_all [field, getProp]

theorem getProp_of_ne_null {j : Json} (h : j ≠ .null) (k : String) :
    getProp j k = .ok (field j k) := by
  cases j <;> simp_all [field, getProp]

theorem getItem_setItem (k v : String) (ls : Storage) :
    getItem k (setItem k v ls) = some v := by
  induction ls with
  | nil => simp [setItem, getItem]
  | cons kv rest ih =>
    obtain ⟨k', v'⟩ := kv
    by_cases hk : k' = k
    · simp [setItem, getItem, hk]
    · simp [setItem, getItem, hk, ih]

theorem truthy_str {d : String} (h : d ≠ "") : truthy (some (.str d)) = true := by
  simp [truthy, h]

theorem ok_iff (res : Response) :
    res.ok = true ↔ 200 ≤ res.status ∧ res.status ≤ 299 := by
  simp [Response.ok]

/-- In the failure branch of `connectPi` only the status message can change. -/
theorem connectFailed_frame (s : AppState) (j : Json) :
    (connectFailed s j).1 = { s with msg := (connectFailed s j).1.msg } ∧
      (connectFailed s j).2 = [] := by
  unfold connectFailed
  split
  · exact ⟨rfl, rfl⟩
  · exact ⟨rfl, rfl⟩
  · split
    · split <;> exact ⟨rfl, rfl⟩
    · exact ⟨rfl, rfl⟩

theorem connectPiCont_no_body (api : String) (s : AppState) {res : Response}
    (hb : res.body = none) : connectPiCont api s (.response res) = (s, []) := by
  simp [connectPiCont, hb]

theorem connectPiCont_not_ok (api : String) (s : AppState) {res : Response} {j : Json}
    (hb : res.body = some j) (hok : res.ok = false) :
    connectPiCont api s (.response res) = connectFailed s j := by
  simp [connectPiCont, hb, hok]

theorem connectPiCont_null (api : String) (s : AppState) {res : Response}
    (hb : res.body = some .null) (hok : res.ok = true) :
    connectPiCont api s (.response res) = (s, []) := by
  simp [connectPiCont, hb, hok, getProp]

theorem connectPiCont_falsy (api : String) (s : AppState) {res : Response} {j : Json}
    (hb : res.body = some j) (hj : j ≠ .null) (ht : truthy (field j "token") = false) :
    connectPiCont api s (.response res) = connectFailed s j := by
  by_cases hok : res.ok = true
  · cases hf : field j "token" with
    | none => simp [connectPiCont, hb, hok, getProp_of_ne_null hj, hf]
    | some t =>
      rw [hf] at ht
      simp [connectPiCont, hb, hok, getProp_of_ne_null hj, hf, ht]
  · exact connectPiCont_not_ok api s hb (by simpa using hok)

theorem connectPiCont_token (api : String) (s : AppState) {res : Response} {j t : Json}
    {text : String} (hb : res.body = some j) (hok : res.ok = true)
    (hf : field j "token" = some t) (ht : truthy (some t) = true) (hs : toStr t = some text) :
    connectPiCont api s (.response res)
      = ({ s with localStorage := setItem "pip_token" text s.localStorage
                  token := t
                  msg := .str "Connected" }, fetchMe api t) := by
  simp [connectPiCont, hb, hok, getProp_of_field_some hf, ht, hs]

/-! ## Token variant: connect -/

/-- C1: a failed `/auth/pi` response (status not 2xx, or a body whose token
field is missing or empty) leaves `localStorage`, the in-memory token, `me`
and the two inputs as they were: the state after `connectPi` is the state
before with at most the status message replaced, no request follows, and
the Authenticated guard has the value it had. -/
theorem connectPi_failure_keeps_session (api : String) (s : AppState) (res : Response)
    (hfail : res.ok = false ∨ ∀ j, res.body = some j → truthy (field j "token") = false) :
    (connectPiCont api s (.response res)).1
        = { s with msg := (connectPiCont api s (.response res)).1.msg } ∧
      (connectPiCont api s (.response res)).2 = [] ∧
      authenticated (connectPiCont api s (.response res)).1 = authenticated s := by
  have key : (connectPiCont api s (.response res)).1
        = { s with msg := (connectPiCont api s (.response res)).1.msg } ∧
      (connectPiCont api s (.response res)).2 = [] := by
    cases hb : res.body with
    | none => rw [connectPiCont_no_body api s hb]; exact ⟨rfl, rfl⟩
    | some j =>
      by_cases hok : res.ok = true
      · have ht : truthy (field j "token") = false := by
          rcases hfail with h | h
          · rw [hok] at h; cases h
          · exact h j hb
        by_cases hj : j = .null
        · subst hj
          rw [connectPiCont_null api s hb hok]; exact ⟨rfl, rfl⟩
        · rw [connectPiCont_falsy api s hb hj ht]
          exact connectFailed_frame s j
      · rw [connectPiCont_not_ok api s hb (by simpa using hok)]
        exact connectFailed_frame s j
  refine ⟨key.1, key.2, ?_⟩
  rw [key.1]
  rfl

theorem connectPi_failure_keeps_session_witness :
    ((rejection 401 "Invalid proof").ok = false ∨
      ∀ j, (rejection 401 "Invalid proof").body = some j → truthy (field j "token") = false) ∧
    ((connectPiCont "http://localhost:8000" connectedState
          (.response (rejection 401 "Invalid proof"))).1
        = { connectedState with
            msg := (connectPiCont "http://localhost:8000" connectedState
              (.response (rejection 401 "Invalid proof"))).1.msg } ∧
      (connectPiCont "http://localhost:8000" connectedState
          (.response (rejection 401 "Invalid proof"))).2 = [] ∧
      authenticated (connectPiCont "http://localhost:8000" connectedState
          (.response (rejection 401 "Invalid proof"))).1 = authenticated connectedState) :=
  ⟨Or.inl (by decide),
    connectPi_failure_keeps_session "http://localhost:8000" connectedState
      (rejection 401 "Invalid proof") (Or.inl (by decide))⟩

/-- C2: a 2xx `/auth/pi` response with a non-empty token `t` makes `connectPi`
store `t` under `pip_token`, set the in-memory token to `t` and the status
message to "Connected", change nothing else, and issue exactly one request:
the GET of `/me` with `t` as its token. -/
theorem connectPi_success_saves_token (api : String) (s : AppState) (res : Response)
    (j : Json) (t : String)
    (hstatus : 200 ≤ res.status ∧ res.status ≤ 299) (hb : res.body = some j)
    (htok : field j "token" = some (.str t)) (hne : t ≠ "") :
    connectPiCont api s (.response res)
        = ({ s with localStorage := setItem "pip_token" t s.localStorage
                    token := .str t
                    msg := .str "Connected" },
            [.fetch (getRequest (api ++ "/me?token=" ++ t))]) ∧
      getItem "pip_token" (connectPiCont api s (.response res)).1.localStorage = some t ∧
      (connectPiCont api s (.response res)).1.token = .str t ∧
      (connectPiCont api s (.response res)).1.msg = .str "Connected" := by
  have h := connectPiCont_token api s hb ((ok_iff res).2 hstatus) htok (truthy_str hne)
    (show toStr (.str t) = some t from rfl)
  rw [h]
  exact ⟨rfl, getItem_setItem _ _ _, rfl, rfl⟩

theorem connectPi_success_saves_token_witness :
    ((200 ≤ (Response.mk 200 (some (.obj [("token", .str "tok1")]))).status ∧
        (Response.mk 200 (some (.obj [("token", .str "tok1")]))).status ≤ 299) ∧
      (Response.mk 200 (some (.obj [("token", .str "tok1")]))).body
        = some (.obj [("token", .str "tok1")]) ∧
      field (.obj [("token", .str "tok1")]) "token" = some (.str "tok1") ∧ "tok1" ≠ "") ∧
    (connectPiCont "http://localhost:8000" anonymousState
          (.response ⟨200, some (.obj [("token", .str "tok1")])⟩)
        = ({ anonymousState with
              localStorage := setItem "pip_token" "tok1" anonymousState.localStorage
              token := .str "tok1"
              msg := .str "Connected" },
            [.fetch (getRequest ("http://localhost:8000" ++ "/me?token=" ++ "tok1"))]) ∧
      getItem "pip_token" (connectPiCont "http://localhost:8000" anonymousState
          (.response ⟨200, some (.obj [("token", .str "tok1")])⟩)).1.localStorage = some "tok1" ∧
      (connectPiCont "http://localhost:8000" anonymousState
          (.response ⟨200, some (.obj [("token", .str "tok1")])⟩)).1.token = .str "tok1" ∧
      (connectPiCont "http://localhost:8000" anonymousState
          (.response ⟨200, some (.obj [("token", .str "tok1")])⟩)).1.msg = .str "Connected") :=
  ⟨⟨by decide, rfl, rfl, by decide⟩,
    connectPi_success_saves_token "http://localhost:8000" anonymousState
      ⟨200, some (.obj [("token", .str "tok1")])⟩ (.obj [("token", .str "tok1")]) "tok1"
      (by decide) rfl rfl (by decide)⟩

/-! ## Token variant: mine and view ad -/

theorem mineCont_detail (api : String) (tok : Json) (s : AppState) {res : Response}
    {j d : Json} (hb : res.body = some j) (hd : field j "detail" = some d)
    (ht : truthy (some d) = true) :
    mineCont api tok s (.response res) = ({ s with msg := d }, []) := by
  simp [mineCont, hb, getProp_of_field_some hd, ht]

theorem viewAdCont_detail (api : String) (tok : Json) (s : AppState) {res : Response}
    {j d : Json} (hb : res.body = some j) (hd : field j "detail" = some d)
    (ht : truthy (some d) = true) :
    viewAdCont api tok s (.response res) = ({ s with msg := d }, []) := by
  simp [viewAdCont, hb, getProp_of_field_some hd, ht]

theorem mineCont_no_detail (api : String) (tok : Json) (s : AppState) {res : Response}
    {j : Json} (hb : res.body = some j) (hj : j ≠ .null)
    (hd : truthy (field j "detail") = false) :
    mineCont api tok s (.response res)
      = ({ s with msg := .str "Mined 100 coins" }, fetchMe api tok) := by
  cases hf : field j "detail" with
  | none => simp [mineCont, hb, getProp_of_ne_null hj, hf]
  | some d =>
    rw [hf] at hd
    simp [mineCont, hb, getProp_of_ne_null hj, hf, hd]

theorem viewAdCont_no_detail (api : String) (tok : Json) (s : AppState) {res : Response}
    {j : Json} (hb : res.body = some j) (hj : j ≠ .null)
    (hd : truthy (field j "detail") = false) :
    viewAdCont api tok s (.response res)
      = ({ s with msg := .str "Ad viewed +5" }, fetchMe api tok) := by
  cases hf : field j "detail" with
  | none => simp [viewAdCont, hb, getProp_of_ne_null hj, hf]
  | some d =>
    rw [hf] at hd
    simp [viewAdCont, hb, getProp_of_ne_null hj, hf, hd]

/-- C3: when the body of the `/mine` response carries a non-empty detail
string `d`, the state after `mine` is the state before with the status
message replaced by exactly `d` (token, `me` and storage untouched), and no
request is issued, whatever the status code. -/
theorem mine_detail_shown_verbatim (api : String) (tok : Json) (s : AppState)
    (res : Response) (j : Json) (d : String)
    (hb : res.body = some j) (hd : field j "detail" = some (.str d)) (hne : d ≠ "") :
    mineCont api tok s (.response res) = ({ s with msg := .str d }, []) ∧
      (mineCont api tok s (.response res)).1.msg = .str d ∧
      (mineCont api tok s (.response res)).1.token = s.token ∧
      (mineCont api tok s (.response res)).1.me = s.me ∧
      (mineCont api tok s (.response res)).2 = [] := by
  rw [mineCont_detail api tok s hb hd (truthy_str hne)]
  exact ⟨rfl, rfl, rfl, rfl, rfl⟩

theorem mine_detail_shown_verbatim_witness :
    ((rejection 400 "Cooldown active").body
        = some (.obj [("detail", .str "Cooldown active")]) ∧
      field (.obj [("detail", .str "Cooldown active")]) "detail"
        = some (.str "Cooldown active") ∧ "Cooldown active" ≠ "") ∧
    (mineCont "http://localhost:8000" connectedState.token connectedState
          (.response (rejection 400 "Cooldown active"))
        = ({ connectedState with msg := .str "Cooldown active" }, []) ∧
      (mineCont "http://localhost:8000" connectedState.token connectedState
          (.response (rejection 400 "Cooldown active"))).1.msg = .str "Cooldown active" ∧
      (mineCont "http://localhost:8000" connectedState.token connectedState
          (.response (rejection 400 "Cooldown active"))).1.token = connectedState.token ∧
      (mineCont "http://localhost:8000" connectedState.token connectedState
          (.response (rejection 400 "Cooldown active"))).1.me = connectedState.me ∧
      (mineCont "http://localhost:8000" connectedState.token connectedState
          (.response (rejection 400 "Cooldown active"))).2 = []) :=
  ⟨⟨rfl, rfl, by decide⟩,
    mine_detail_shown_verbatim "http://localhost:8000" connectedState.token connectedState
      (rejection 400 "Cooldown active") (.obj [("detail", .str "Cooldown active")])
      "Cooldown active" rfl rfl (by decide)⟩

theorem fetchMe_of_toStr (api : String) {tok : Json} {u : String} (hu : toStr tok = some u) :
    fetchMe api tok = [.fetch (getRequest (api ++ "/me?token=" ++ u))] := by
  simp [fetchMe, hu]

/-- C10, as stated, fails on a 200 response whose body is the JSON value
`null`: that body has no detail field, yet reading `j.detail` throws, so the
status message stays what it was and no `/me` refresh is issued. -/
theorem mine_null_body_no_confirmation :
    field .null "detail" = none ∧
      (mineCont "http://localhost:8000" connectedState.token connectedState
          (.response ⟨200, some .null⟩)).1.msg = .str "Connected" ∧
      (mineCont "http://localhost:8000" connectedState.token connectedState
          (.response ⟨200, some .null⟩)).1.msg ≠ .str "Mined 100 coins" ∧
      (mineCont "http://localhost:8000" connectedState.token connectedState
          (.response ⟨200, some .null⟩)).2 = [] := by
  refine ⟨rfl, rfl, ?_, rfl⟩
  intro h
  have h2 : Json.str "Connected" = Json.str "Mined 100 coins" := h
  injection h2 with h3
  revert h3
  decide

/-- C10 (amended): `mine` and `viewAd` never read the status code.  For a
response of any status whose body is JSON other than `null` and has no
detail field, or a falsy one, the state after is the state before with the
status message replaced by the fixed confirmation ("Mined 100 coins", "Ad
viewed +5") and exactly one request follows, the GET of `/me` with the
token the handler was called with.  The two handlers issue the same
follow-up requests on every outcome and leave states that agree outside
the status message; their own requests differ in the path only. -/
theorem mine_viewAd_decide_by_body (api : String) (tok : Json) (u : String) (s : AppState)
    (res : Response) (j : Json)
    (hb : res.body = some j) (hj : j ≠ .null) (hd : truthy (field j "detail") = false)
    (hu : toStr tok = some u) :
    mineCont api tok s (.response res)
        = ({ s with msg := .str "Mined 100 coins" },
            [.fetch (getRequest (api ++ "/me?token=" ++ u))]) ∧
      viewAdCont api tok s (.response res)
        = ({ s with msg := .str "Ad viewed +5" },
            [.fetch (getRequest (api ++ "/me?token=" ++ u))]) ∧
      (∀ r, (mineCont api tok s r).2 = (viewAdCont api tok s r).2 ∧
        { (mineCont api tok s r).1 with msg := .null }
          = { (viewAdCont api tok s r).1 with msg := .null }) ∧
      (s.token = tok →
        mine api s = [.fetch (postRequest (api ++ "/mine?token=" ++ u))] ∧
        viewAd api s = [.fetch (postRequest (api ++ "/view_ad?token=" ++ u))]) := by
  refine ⟨?_, ?_, ?_, ?_⟩
  · rw [mineCont_no_detail api tok s hb hj hd, fetchMe_of_toStr api hu]
  · rw [viewAdCont_no_detail api tok s hb hj hd, fetchMe_of_toStr api hu]
  · intro r
    cases r with
    | failed => exact ⟨rfl, rfl⟩
    | response res2 =>
      cases hb2 : res2.body with
      | none => simp [mineCont, viewAdCont, hb2]
      | some j2 =>
        cases hg : getProp j2 "detail" with
        | error e => simp [mineCont, viewAdCont, hb2, hg]
        | ok d =>
          cases d with
          | none => simp [mineCont, viewAdCont, hb2, hg]
          | some d =>
            by_cases ht : truthy (some d) = true
            · simp [mineCont, viewAdCont, hb2, hg, ht]
            · simp [mineCont, viewAdCont, hb2, hg, ht]
  · intro hs
    subst hs
    simp [mine, viewAd, hu]

theorem mine_viewAd_decide_by_body_witness :
    ((Response.mk 500 (some (.obj [("error", .str "boom")]))).body
        = some (.obj [("error", .str "boom")]) ∧
      Json.obj [("error", .str "boom")] ≠ .null ∧
      truthy (field (.obj [("error", .str "boom")]) "detail") = false ∧
      toStr (.str "old") = some "old") ∧
    mineCont "http://localhost:8000" (.str "old") connectedState
        (.response ⟨500, some (.obj [("error", .str "boom")])⟩)
      = ({ connectedState with msg := .str "Mined 100 coins" },
          [.fetch (getRequest ("http://localhost:8000" ++ "/me?token=" ++ "old"))]) ∧
    viewAdCont "http://localhost:8000" (.str "old") connectedState
        (.response ⟨500, some (.obj [("error", .str "boom")])⟩)
      = ({ connectedState with msg := .str "Ad viewed +5" },
          [.fetch (getRequest ("http://localhost:8000" ++ "/me?token=" ++ "old"))]) :=
  ⟨⟨rfl, (by intro h; cases h), rfl, rfl⟩,
    (mine_viewAd_decide_by_body "http://localhost:8000" (.str "old") "old" connectedState
      ⟨500, some (.obj [("error", .str "boom")])⟩ (.obj [("error", .str "boom")])
      rfl (by intro h; cases h) rfl rfl).1,
    (mine_viewAd_decide_by_body "http://localhost:8000" (.str "old") "old" connectedState
      ⟨500, some (.obj [("error", .str "boom")])⟩ (.obj [("error", .str "boom")])
      rfl (by intro h; cases h) rfl rfl).2.1⟩

/-! ## Token variant: the message of a failed connect -/

theorem connectFailed_detail (s : AppState) {j d : Json} {text : String}
    (hd : field j "detail" = some d) (ht : truthy (some d) = true)
    (hs : toStr d = some text) :
    connectFailed s j = ({ s with msg := .str ("Connect failed: " ++ text) }, []) := by
  simp [connectFailed, getProp_of_field_some hd, ht, hs]

theorem connectFailed_detail_throws (s : AppState) {j d : Json}
    (hd : field j "detail" = some d) (ht : truthy (some d) = true)
    (hs : toStr d = none) :
    connectFailed s j = (s, []) := by
  simp [connectFailed, getProp_of_field_some hd, ht, hs]

theorem connectFailed_no_detail (s : AppState) {j : Json} (hj : j ≠ .null)
    (hd : truthy (field j "detail") = false) :
    connectFailed s j
      = ({ s with msg := .str ("Connect failed: " ++ jsonStringify j) }, []) := by
  cases hf : field j "detail" with
  | none => simp [connectFailed, getProp_of_ne_null hj, hf]
  | some d =>
    rw [hf] at hd
    simp [connectFailed, getProp_of_ne_null hj, hf, hd]

/-- C9, as stated, fails on a 500 response whose body is the JSON value
`null`: it carries no detail, the claim asks for "Connect failed: null",
but reading `j.detail` throws and the status message stays what it was.
It also fails when the detail is an object with an own `toString` field:
the detail is truthy, but appending it to the prefix throws, and the
message again stays what it was. -/
theorem connectPi_null_body_no_message :
    ((Response.mk 500 (some .null)).ok = false ∧ field .null "detail" = none ∧
      (connectPiCont "http://localhost:8000" anonymousState
          (.response ⟨500, some .null⟩)).1.msg = anonymousState.msg ∧
      (connectPiCont "http://localhost:8000" anonymousState
          (.response ⟨500, some .null⟩)).1.msg
        ≠ .str ("Connect failed: " ++ jsonStringify .null)) ∧
    (truthy (field (.obj [("detail", .obj [("toString", .str "x")])]) "detail") = true ∧
      connectPiCont "http://localhost:8000" anonymousState
          (.response ⟨500, some (.obj [("detail", .obj [("toString", .str "x")])])⟩)
        = (anonymousState, [])) := by
  refine ⟨⟨by decide, rfl, rfl, ?_⟩, rfl, rfl⟩
  intro h
  have h2 : Json.str "" = Json.str ("Connect failed: " ++ jsonStringify .null) := h
  injection h2 with h3
  revert h3
  decide

/-- C9 (amended): for a failed `/auth/pi` response (status not 2xx, or token
missing or falsy) whose body `j` is JSON other than `null`, the status
message after `connectPi` is "Connect failed: " followed by the detail,
converted to a string, when `j` carries a non-empty (truthy) detail, and
followed by `JSON.stringify(j)` when `j` has no detail or a falsy one.  The
one exception is a detail that has no string conversion: the state is then
left as it was. -/
theorem connectPi_failure_message (api : String) (s : AppState) (res : Response) (j : Json)
    (hb : res.body = some j) (hj : j ≠ .null)
    (hfail : res.ok = false ∨ truthy (field j "token") = false) :
    (∀ d : String, field j "detail" = some (.str d) → d ≠ "" →
        (connectPiCont api s (.response res)).1.msg = .str ("Connect failed: " ++ d)) ∧
      (∀ (d : Json) (text : String), field j "detail" = some d → truthy (some d) = true →
        toStr d = some text →
        connectPiCont api s (.response res)
          = ({ s with msg := .str ("Connect failed: " ++ text) }, [])) ∧
      (∀ d : Json, field j "detail" = some d → truthy (some d) = true → toStr d = none →
        connectPiCont api s (.response res) = (s, [])) ∧
      (truthy (field j "detail") = false →
        connectPiCont api s (.response res)
          = ({ s with msg := .str ("Connect failed: " ++ jsonStringify j) }, [])) := by
  have hc : connectPiCont api s (.response res) = connectFailed s j := by
    rcases hfail with h | h
    · exact connectPiCont_not_ok api s hb h
    · exact connectPiCont_falsy api s hb hj h
  rw [hc]
  refine ⟨?_, ?_, ?_, ?_⟩
  · intro d hd hne
    rw [connectFailed_detail s hd (truthy_str hne) (show toStr (.str d) = some d from rfl)]
  · intro d text hd ht hs
    exact connectFailed_detail s hd ht hs
  · intro d hd ht hs
    exact connectFailed_detail_throws s hd ht hs
  · intro hd
    exact connectFailed_no_detail s hj hd

theorem connectPi_failure_message_witness :
    ((Response.mk 200 (some oddBody)).body = some oddBody ∧ oddBody ≠ .null ∧
      ((Response.mk 200 (some oddBody)).ok = false ∨
        truthy (field oddBody "token") = false)) ∧
    connectPiCont "http://localhost:8000" anonymousState (.response ⟨200, some oddBody⟩)
      = ({ anonymousState with
            msg := .str "Connect failed: \x7b\"error\":\"no\",\"code\":7\x7d" }, []) :=
  ⟨⟨rfl, (by intro h; cases h), Or.inr rfl⟩,
    ((connectPi_failure_message "http://localhost:8000" anonymousState
      ⟨200, some oddBody⟩ oddBody rfl (by intro h; cases h) (Or.inr rfl)).2.2.2 rfl).trans
      (by
        show (({ anonymousState with
          msg := .str ("Connect failed: " ++ jsonStringify oddBody) } : AppState),
            ([] : List Effect)) = _
        have h : "Connect failed: " ++ jsonStringify oddBody
            = "Connect failed: \x7b\"error\":\"no\",\"code\":7\x7d" := by decide
        rw [h])⟩

/-! ## No-auth variant: profile -/

theorem ne_null_of_field_some {j : Json} {k : String} {v : Json}
    (h : field j k = some v) : j ≠ .null := by
  intro hj
  subst hj
  cases h

theorem avatarSrc_of_avatar {data : Json} {a : String} (hj : data ≠ .null)
    (ha : field data "avatar" = some (.str a)) (hne : a ≠ "") :
    avatarSrc data = some a := by
  simp [avatarSrc, getProp_of_ne_null hj, ha, truthy, hne, toStrU, toStr]

theorem avatarSrc_of_no_avatar {data : Json} {av : Option Json} {gender : String}
    (hj : data ≠ .null) (ha : field data "avatar" = av)
    (hav : av = none ∨ av = some .null ∨ av = some (.str ""))
    (hg : field data "gender" = some (.str gender)) :
    avatarSrc data
      = some (if gender = "female" then "avatar_female.png" else "avatar_male.png") := by
  rcases hav with h | h | h <;> subst h <;>
    simp [avatarSrc, getProp_of_ne_null hj, ha, truthy, hg]

/-- C4: for a profile payload with a string `name`, numbers `rank` and
`coins`, a string `gender` and an `avatar` that is a string, `null` or
missing, `fetchUserProfile` writes exactly `name`, "Rank: " followed by the
rank, "Coins: " followed by the coins (each number as JavaScript prints
it), and as avatar source the payload's avatar when it has one (a
non-empty string), otherwise (avatar missing, `null` or empty) the gender
default: `avatar_female.png` for gender "female", `avatar_male.png` for
gender "male" and for any other gender.  The leaderboard and the ad counter
are untouched and nothing is logged, whatever the status code. -/
theorem fetchUserProfile_mirrors_payload (d : Dom) (status : Nat) (data : Json)
    (name gender : String) (rank coins : JsNumber) (av : Option Json)
    (hname : field data "name" = some (.str name))
    (hrank : field data "rank" = some (.num rank))
    (hcoins : field data "coins" = some (.num coins))
    (hgender : field data "gender" = some (.str gender))
    (havatar : field data "avatar" = av)
    (hav : av = none ∨ av = some .null ∨ ∃ a, av = some (.str a)) :
    (fetchUserProfileCont d (.response ⟨status, some data⟩)).2 = [] ∧
      (fetchUserProfileCont d (.response ⟨status, some data⟩)).1.userName = name ∧
      (fetchUserProfileCont d (.response ⟨status, some data⟩)).1.userRank
        = "Rank: " ++ numberToString rank ∧
      (fetchUserProfileCont d (.response ⟨status, some data⟩)).1.userCoins
        = "Coins: " ++ numberToString coins ∧
      (fetchUserProfileCont d (.response ⟨status, some data⟩)).1.leaderboard
        = d.leaderboard ∧
      (fetchUserProfileCont d (.response ⟨status, some data⟩)).1.adsWatched
        = d.adsWatched ∧
      (∀ a, av = some (.str a) → a ≠ "" →
        (fetchUserProfileCont d (.response ⟨status, some data⟩)).1.userAvatar = a) ∧
      (av = none ∨ av = some .null ∨ av = some (.str "") →
        (gender = "female" →
          (fetchUserProfileCont d (.response ⟨status, some data⟩)).1.userAvatar
            = "avatar_female.png") ∧
        (gender = "male" →
          (fetchUserProfileCont d (.response ⟨status, some data⟩)).1.userAvatar
            = "avatar_male.png") ∧
        (gender ≠ "female" →
          (fetchUserProfileCont d (.response ⟨status, some data⟩)).1.userAvatar
            = "avatar_male.png")) := by
  have hj := ne_null_of_field_some hname
  have hmain : ∀ src, avatarSrc data = some src →
      fetchUserProfileCont d (.response ⟨status, some data⟩)
        = ({ d with
              userName := name
              userRank := "Rank: " ++ numberToString rank
              userCoins := "Coins: " ++ numberToString coins
              userAvatar := src }, []) := by
    intro src hsrc
    simp [fetchUserProfileCont, renderProfile, getProp_of_field_some hname,
      getProp_of_field_some hrank, getProp_of_field_some hcoins, hsrc, Except.toOption,
      textContentOf, toStrU, toStr]
  have hsrc : ∃ src, avatarSrc data = some src := by
    rcases hav with h | h | ⟨a, h⟩
    · exact ⟨_, avatarSrc_of_no_avatar hj havatar (Or.inl h) hgender⟩
    · exact ⟨_, avatarSrc_of_no_avatar hj havatar (Or.inr (Or.inl h)) hgender⟩
    · by_cases ha : a = ""
      · subst ha
        exact ⟨_, avatarSrc_of_no_avatar hj havatar (Or.inr (Or.inr h)) hgender⟩
      · exact ⟨a, avatarSrc_of_avatar hj (havatar.trans h) ha⟩
  obtain ⟨src, hs⟩ := hsrc
  refine ⟨?_, ?_, ?_, ?_, ?_, ?_, ?_, ?_⟩
  · rw [hmain src hs]
  · rw [hmain src hs]
  · rw [hmain src hs]
  · rw [hmain src hs]
  · rw [hmain src hs]
  · rw [hmain src hs]
  · intro a ha hne
    rw [hmain a (avatarSrc_of_avatar hj (havatar.trans ha) hne)]
  · intro hno
    have h := avatarSrc_of_no_avatar hj havatar hno hgender
    rw [hmain _ h]
    refine ⟨?_, ?_, ?_⟩
    · intro hg; simp [hg]
    · intro hg; simp [hg]
    · intro hg; simp [hg]

theorem fetchUserProfile_mirrors_payload_witness :
    (field alice "name" = some (.str "Alice") ∧
      field alice "rank" = some (.num (.int 3 (by decide))) ∧
      field alice "coins" = some (.num (.int 120 (by decide))) ∧
      field alice "gender" = some (.str "female") ∧
      field alice "avatar" = none ∧
      ((none : Option Json) = none ∨ (none : Option Json) = some .null ∨
        ∃ a, (none : Option Json) = some (.str a))) ∧
    ((fetchUserProfileCont stalePage (.response ⟨200, some alice⟩)).2 = [] ∧
      (fetchUserProfileCont stalePage (.response ⟨200, some alice⟩)).1.userName = "Alice" ∧
      (fetchUserProfileCont stalePage (.response ⟨200, some alice⟩)).1.userRank = "Rank: 3" ∧
      (fetchUserProfileCont stalePage (.response ⟨200, some alice⟩)).1.userCoins
        = "Coins: 120" ∧
      (fetchUserProfileCont stalePage (.response ⟨200, some alice⟩)).1.userAvatar
        = "avatar_female.png") :=
  ⟨⟨rfl, rfl, rfl, rfl, rfl, Or.inl rfl⟩,
    (fetchUserProfile_mirrors_payload stalePage 200 alice "Alice" "female"
      (.int 3 (by decide)) (.int 120 (by decide)) none rfl rfl rfl rfl rfl (Or.inl rfl)).1,
    (fetchUserProfile_mirrors_payload stalePage 200 alice "Alice" "female"
      (.int 3 (by decide)) (.int 120 (by decide)) none rfl rfl rfl rfl rfl (Or.inl rfl)).2.1,
    (fetchUserProfile_mirrors_payload stalePage 200 alice "Alice" "female"
      (.int 3 (by decide)) (.int 120 (by decide)) none rfl rfl rfl rfl rfl
      (Or.inl rfl)).2.2.1.trans (by decide),
    (fetchUserProfile_mirrors_payload stalePage 200 alice "Alice" "female"
      (.int 3 (by decide)) (.int 120 (by decide)) none rfl rfl rfl rfl rfl
      (Or.inl rfl)).2.2.2.1.trans (by decide),
    ((fetchUserProfile_mirrors_payload stalePage 200 alice "Alice" "female"
      (.int 3 (by decide)) (.int 120 (by decide)) none rfl rfl rfl rfl rfl
      (Or.inl rfl)).2.2.2.2.2.2.2 (Or.inl rfl)).1 rfl⟩

/-! ## No-auth variant: leaderboard -/

theorem entryText_of_isEntry {e : Json} {p : String × JsNumber} (h : IsEntry e p) :
    entryText e = some (p.1 ++ " - " ++ numberToString p.2 ++ " coins") := by
  obtain ⟨hn, hc⟩ := h
  simp [entryText, getProp_of_field_some hn, getProp_of_field_some hc, Except.toOption,
    toStrU, toStr]

theorem appendEntries_of_entries {entries : List Json} {L : List (String × JsNumber)}
    (h : List.Forall₂ IsEntry entries L) (lb : List Node) :
    appendEntries lb entries = (lb ++ L.map entryItem, false) := by
  induction h generalizing lb with
  | nil => simp [appendEntries]
  | cons hd _ ih =>
    simp [appendEntries, entryText_of_isEntry hd, ih, entryItem]

/-- C5: for a leaderboard payload whose entries are `{name, coins}` records
(a string and a number), whatever the leaderboard element held before,
`fetchLeaderboard` leaves in it exactly one `li` per entry, in payload
order, reading "name - coins coins" with the coins as JavaScript prints
the number, changes nothing else and logs nothing; rendering the same
payload again on the result gives the same page. -/
theorem fetchLeaderboard_replaces_list (d : Dom) (status : Nat) (entries : List Json)
    (L : List (String × JsNumber)) (h : List.Forall₂ IsEntry entries L) :
    fetchLeaderboardCont d (.response ⟨status, some (.arr entries)⟩)
        = ({ d with leaderboard := L.map entryItem }, []) ∧
      (fetchLeaderboardCont d (.response ⟨status, some (.arr entries)⟩)).1.leaderboard.length
        = entries.length ∧
      fetchLeaderboardCont
          (fetchLeaderboardCont d (.response ⟨status, some (.arr entries)⟩)).1
          (.response ⟨status, some (.arr entries)⟩)
        = fetchLeaderboardCont d (.response ⟨status, some (.arr entries)⟩) := by
  have key : ∀ d0 : Dom, fetchLeaderboardCont d0 (.response ⟨status, some (.arr entries)⟩)
      = ({ d0 with leaderboard := L.map entryItem }, []) := by
    intro d0
    simp [fetchLeaderboardCont, appendEntries_of_entries h]
  refine ⟨key d, ?_, ?_⟩
  · rw [key d]
    simp [h.length_eq]
  · rw [key d, key]

theorem fetchLeaderboard_replaces_list_witness :
    List.Forall₂ IsEntry
        [.obj [("name", .str "Bob"), ("coins", .num (.int 300 (by decide)))],
          .obj [("name", .str "Alice"), ("coins", .num (.other "1e+21"))]]
        [("Bob", .int 300 (by decide)), ("Alice", .other "1e+21")] ∧
    (fetchLeaderboardCont stalePage (.response ⟨200, some (.arr
        [.obj [("name", .str "Bob"), ("coins", .num (.int 300 (by decide)))],
          .obj [("name", .str "Alice"), ("coins", .num (.other "1e+21"))]])⟩)).1.leaderboard
      = [⟨"li", "Bob - 300 coins"⟩, ⟨"li", "Alice - 1e+21 coins"⟩] :=
  ⟨.cons ⟨rfl, rfl⟩ (.cons ⟨rfl, rfl⟩ .nil),
    (congrArg (fun r => r.1.leaderboard)
      (fetchLeaderboard_replaces_list stalePage 200
        [.obj [("name", .str "Bob"), ("coins", .num (.int 300 (by decide)))],
          .obj [("name", .str "Alice"), ("coins", .num (.other "1e+21"))]]
        [("Bob", .int 300 (by decide)), ("Alice", .other "1e+21")]
        (.cons ⟨rfl, rfl⟩ (.cons ⟨rfl, rfl⟩ .nil))).1).trans (by decide)⟩

/-! ## Page load in the token variant -/

/-- C7, as stated, fails: on a page load with a token stored under
`pip_token` the token is loaded, but no request at all is issued (there is
no session check), `me` is `null`, and the view is not Authenticated. -/
theorem App_init_no_session_check :
    getItem "pip_token" [("pip_token", "tok1")] = some "tok1" ∧
      (App.init [("pip_token", "tok1")]).1.token = .str "tok1" ∧
      (App.init [("pip_token", "tok1")]).2 = [] ∧
      (App.init [("pip_token", "tok1")]).1.me = .null ∧
      authenticated (App.init [("pip_token", "tok1")]).1 = false := by
  refine ⟨by decide, ?_, rfl, rfl, ?_⟩
  · simp [App.init, getItem]
  · simp [App.init, getItem, authenticated, truthy]

/-- C7 (amended): on every page load the controller takes the in-memory
token from `pip_token` (the empty string when nothing is stored), leaves
storage as it is, issues no request, and starts with `me` equal to `null`,
so the view is not Authenticated right after a load, stored token or not. -/
theorem App_init_loads_token_only (ls : Storage) :
    (App.init ls).1.token = .str ((getItem "pip_token" ls).getD "") ∧
      (App.init ls).1.localStorage = ls ∧
      (App.init ls).2 = [] ∧
      (App.init ls).1.me = .null ∧
      authenticated (App.init ls).1 = false := by
  refine ⟨?_, rfl, rfl, rfl, ?_⟩
  · cases h : getItem "pip_token" ls with
    | none => simp [App.init, h]
    | some t =>
      by_cases ht : t = ""
      · simp [App.init, h, ht]
      · simp [App.init, h, ht]
  · simp [authenticated, App.init, truthy]

/-! ## Failures -/

theorem mineCont_frame (api : String) (tok : Json) (s : AppState) (r : FetchResult) :
    (mineCont api tok s r).1 = { s with msg := (mineCont api tok s r).1.msg } := by
  cases r with
  | failed => rfl
  | response res =>
    cases hb : res.body with
    | none => simp [mineCont, hb]
    | some j =>
      cases hg : getProp j "detail" with
      | error e => simp [mineCont, hb, hg]
      | ok d =>
        cases d with
        | none => simp [mineCont, hb, hg]
        | some d =>
          by_cases ht : truthy (some d) = true
          · simp [mineCont, hb, hg, ht]
          · simp [mineCont, hb, hg, ht]

theorem viewAdCont_frame (api : String) (tok : Json) (s : AppState) (r : FetchResult) :
    (viewAdCont api tok s r).1 = { s with msg := (viewAdCont api tok s r).1.msg } := by
  cases r with
  | failed => rfl
  | response res =>
    cases hb : res.body with
    | none => simp [viewAdCont, hb]
    | some j =>
      cases hg : getProp j "detail" with
      | error e => simp [viewAdCont, hb, hg]
      | ok d =>
        cases d with
        | none => simp [viewAdCont, hb, hg]
        | some d =>
          by_cases ht : truthy (some d) = true
          · simp [viewAdCont, hb, hg, ht]
          · simp [viewAdCont, hb, hg, ht]

theorem transportError_cases {r : FetchResult} (h : transportError r = true) :
    r = .failed ∨ ∃ res, r = .response res ∧ res.body = none := by
  cases r with
  | failed => exact Or.inl rfl
  | response res =>
    refine Or.inr ⟨res, rfl, ?_⟩
    simpa [transportError] using h

/-- A state that differs from a renderable one in its message only, the new
message being renderable, is renderable too. -/
theorem renderThrows_of_frame {s t : AppState} (hf : t = { s with msg := t.msg })
    (hm : renderable t.msg = true) (hs : App.renderThrows s = false) :
    App.renderThrows t = false := by
  rw [hf]
  simp only [App.renderThrows, authenticated, Bool.or_eq_false_iff] at hs ⊢
  refine ⟨?_, hs.2⟩
  simp [hm]

theorem renderThrows_of_same_msg {s t : AppState} (hf : t = { s with msg := t.msg })
    (hm : t.msg = s.msg) (hs : App.renderThrows s = false) :
    App.renderThrows t = false := by
  have ht : t = s := by rw [hf, hm]
  rw [ht]
  exact hs

theorem connectFailed_msg (s : AppState) (j : Json) :
    (connectFailed s j).1.msg = s.msg ∨ ∃ text, (connectFailed s j).1.msg = .str text := by
  unfold connectFailed
  split
  · exact Or.inl rfl
  · exact Or.inr ⟨_, rfl⟩
  · split
    · split
      · exact Or.inr ⟨_, rfl⟩
      · exact Or.inl rfl
    · exact Or.inr ⟨_, rfl⟩

theorem connectPiCont_of_fails (api : String) (s : AppState) {r : FetchResult}
    (h : connectFails r = true) :
    connectPiCont api s r = (s, []) ∨ ∃ j, connectPiCont api s r = connectFailed s j := by
  cases r with
  | failed => exact Or.inl rfl
  | response res =>
    cases hb : res.body with
    | none => exact Or.inl (connectPiCont_no_body api s hb)
    | some j =>
      by_cases hok : res.ok = true
      · have ht : truthy (field j "token") = false := by
          simpa [connectFails, hb, hok] using h
        by_cases hj : j = .null
        · subst hj
          exact Or.inl (connectPiCont_null api s hb hok)
        · exact Or.inr ⟨j, connectPiCont_falsy api s hb hj ht⟩
      · exact Or.inr ⟨j, connectPiCont_not_ok api s hb (by simpa using hok)⟩

theorem connectPiCont_frame_of_fails (api : String) (s : AppState) {r : FetchResult}
    (h : connectFails r = true) :
    (connectPiCont api s r).1 = { s with msg := (connectPiCont api s r).1.msg } ∧
      (App.renderThrows s = false → App.renderThrows (connectPiCont api s r).1 = false) := by
  rcases connectPiCont_of_fails api s h with h1 | ⟨j, h1⟩
  · rw [h1]
    exact ⟨rfl, fun hs => hs⟩
  · rw [h1]
    refine ⟨(connectFailed_frame s j).1, fun hs => ?_⟩
    rcases connectFailed_msg s j with hm | ⟨text, hm⟩
    · exact renderThrows_of_same_msg (connectFailed_frame s j).1 hm hs
    · exact renderThrows_of_frame (connectFailed_frame s j).1 (by rw [hm]; rfl) hs

theorem fetchMeCont_frame_of_failure (s : AppState) (r : FetchResult)
    (h : transportError r = true ∨ non2xx r = true) :
    (fetchMeCont s r).1 = { s with msg := (fetchMeCont s r).1.msg } ∧
      (App.renderThrows s = false → App.renderThrows (fetchMeCont s r).1 = false) := by
  cases r with
  | failed => exact ⟨rfl, fun hs => hs⟩
  | response res =>
    by_cases hok : res.ok = true
    · cases hb : res.body with
      | none =>
        have h1 : fetchMeCont s (.response res) = (s, []) := by simp [fetchMeCont, hok, hb]
        rw [h1]
        exact ⟨rfl, fun hs => hs⟩
      | some j =>
        rcases h with h | h
        · simp [transportError, hb] at h
        · simp [non2xx, hok] at h
    · have h1 : fetchMeCont s (.response res) = ({ s with msg := .str "Session invalid" }, []) := by
        simp [fetchMeCont, hok]
      rw [h1]
      exact ⟨rfl, fun hs => renderThrows_of_frame rfl rfl hs⟩

theorem mineCont_msg (api : String) (tok : Json) (s : AppState) (r : FetchResult)
    (h : detailRenders r = true) :
    (mineCont api tok s r).1.msg = s.msg ∨ renderable (mineCont api tok s r).1.msg = true := by
  cases r with
  | failed => exact Or.inl rfl
  | response res =>
    cases hb : res.body with
    | none => simp [mineCont, hb]
    | some j =>
      by_cases hj : j = .null
      · subst hj
        simp [mineCont, hb, getProp]
      · cases hf : field j "detail" with
        | none => simp [mineCont, hb, getProp_of_ne_null hj, hf, renderable]
        | some d =>
          have hd : renderable d = true := by
            simpa [detailRenders, hb, hf, renderableU] using h
          by_cases ht : truthy (some d) = true
          · simp [mineCont, hb, getProp_of_ne_null hj, hf, ht, hd]
          · simp [mineCont, hb, getProp_of_ne_null hj, hf, ht, renderable]

theorem viewAdCont_msg (api : String) (tok : Json) (s : AppState) (r : FetchResult)
    (h : detailRenders r = true) :
    (viewAdCont api tok s r).1.msg = s.msg ∨
      renderable (viewAdCont api tok s r).1.msg = true := by
  cases r with
  | failed => exact Or.inl rfl
  | response res =>
    cases hb : res.body with
    | none => simp [viewAdCont, hb]
    | some j =>
      by_cases hj : j = .null
      · subst hj
        simp [viewAdCont, hb, getProp]
      · cases hf : field j "detail" with
        | none => simp [viewAdCont, hb, getProp_of_ne_null hj, hf, renderable]
        | some d =>
          have hd : renderable d = true := by
            simpa [detailRenders, hb, hf, renderableU] using h
          by_cases ht : truthy (some d) = true
          · simp [viewAdCont, hb, getProp_of_ne_null hj, hf, ht, hd]
          · simp [viewAdCont, hb, getProp_of_ne_null hj, hf, ht, renderable]

/-- C6, as stated, fails.  In the no-auth variant a 500 response whose body
is an error object empties the rendered leaderboard, overwrites the
rendered name, rank, coins and avatar, and overwrites the ad counter.  In
the token variant a 200 response to `/me` whose body is an error object
replaces the profile `me`, and a `/mine` or `/view_ad` response whose
detail is an object makes the next render throw where the previous one did
not. -/
theorem error_body_overwrites_page :
    (non2xx (.response (rejection 500 "Internal Server Error")) = true ∧
      (fetchLeaderboardCont shownPage
          (.response (rejection 500 "Internal Server Error"))).1.leaderboard = [] ∧
      shownPage.leaderboard ≠ [] ∧
      (fetchUserProfileCont shownPage (.response (rejection 500 "Internal Server Error"))).1
        = { shownPage with
            userName := ""
            userRank := "Rank: undefined"
            userCoins := "Coins: undefined"
            userAvatar := "avatar_male.png" } ∧
      (fetchUserProfileCont shownPage (.response (rejection 500 "Internal Server Error"))).1
        ≠ shownPage ∧
      (watchAdCont shownPage (.response (rejection 500 "Internal Server Error"))).1.adsWatched
        = "Ads Watched: undefined / 5" ∧
      shownPage.adsWatched = "Ads Watched: 2 / 5") ∧
    (field (fetchMeCont connectedState (.response (rejection 200 "Maintenance"))).1.me
        "pi_name" = none ∧
      field connectedState.me "pi_name" = some (.str "ann")) ∧
    (App.renderThrows connectedState = false ∧
      App.renderThrows (mineCont "http://localhost:8000" (.str "old") connectedState
        (.response ⟨400, some (.obj [("detail", .obj [("code", .str "cooldown")])])⟩)).1
        = true ∧
      App.renderThrows (viewAdCont "http://localhost:8000" (.str "old") connectedState
        (.response ⟨400, some (.obj [("detail", .obj [("code", .str "limit")])])⟩)).1
        = true) := by
  refine ⟨by decide, ⟨rfl, rfl⟩, ⟨rfl, rfl, rfl⟩⟩

/-- C6 (amended): in both variants a transport error leaves the UI state
other than the status line as it was.  In the token variant so does every
failed `connectPi` (transport error, status not 2xx, or token missing or
falsy; the last two conjuncts place transport errors and statuses that are
not 2xx under the conditions used here) and every `/me` response that is not 2xx: the state after is the
state before with at most the status message replaced, and the page still
renders.  `mine` and `viewAd` change at most the status message on every
outcome, and the page still renders whenever the detail, if the body has
one, is a value React can render.  In the no-auth variant `startMining`
never changes the page, and every handler gives the same result for a body
whatever the status code. -/
theorem failure_leaves_state (api : String) (tok : Json) (s : AppState) (d : Dom)
    (r : FetchResult) :
    (connectFails r = true →
      (connectPiCont api s r).1 = { s with msg := (connectPiCont api s r).1.msg } ∧
      (App.renderThrows s = false → App.renderThrows (connectPiCont api s r).1 = false)) ∧
    (transportError r = true ∨ non2xx r = true →
      (fetchMeCont s r).1 = { s with msg := (fetchMeCont s r).1.msg } ∧
      (App.renderThrows s = false → App.renderThrows (fetchMeCont s r).1 = false)) ∧
    ((mineCont api tok s r).1 = { s with msg := (mineCont api tok s r).1.msg } ∧
      (viewAdCont api tok s r).1 = { s with msg := (viewAdCont api tok s r).1.msg }) ∧
    (detailRenders r = true → App.renderThrows s = false →
      App.renderThrows (mineCont api tok s r).1 = false ∧
      App.renderThrows (viewAdCont api tok s r).1 = false) ∧
    (transportError r = true →
      (fetchUserProfileCont d r).1 = d ∧ (fetchLeaderboardCont d r).1 = d ∧
      (startMiningCont d r).1 = d ∧ (watchAdCont d r).1 = d) ∧
    (startMiningCont d r).1 = d ∧
    (∀ (status status2 : Nat) (body : Option Json),
      fetchUserProfileCont d (.response ⟨status, body⟩)
        = fetchUserProfileCont d (.response ⟨status2, body⟩) ∧
      fetchLeaderboardCont d (.response ⟨status, body⟩)
        = fetchLeaderboardCont d (.response ⟨status2, body⟩) ∧
      startMiningCont d (.response ⟨status, body⟩)
        = startMiningCont d (.response ⟨status2, body⟩) ∧
      watchAdCont d (.response ⟨status, body⟩)
        = watchAdCont d (.response ⟨status2, body⟩)) ∧
    (transportError r = true ∨ non2xx r = true → connectFails r = true) ∧
    (transportError r = true → detailRenders r = true) := by
  refine ⟨fun h => connectPiCont_frame_of_fails api s h,
    fun h => fetchMeCont_frame_of_failure s r h,
    ⟨mineCont_frame api tok s r, viewAdCont_frame api tok s r⟩, ?_, ?_, ?_, ?_, ?_, ?_⟩
  · intro hd hs
    constructor
    · rcases mineCont_msg api tok s r hd with hm | hm
      · exact renderThrows_of_same_msg (mineCont_frame api tok s r) hm hs
      · exact renderThrows_of_frame (mineCont_frame api tok s r) hm hs
    · rcases viewAdCont_msg api tok s r hd with hm | hm
      · exact renderThrows_of_same_msg (viewAdCont_frame api tok s r) hm hs
      · exact renderThrows_of_frame (viewAdCont_frame api tok s r) hm hs
  · intro ht
    rcases transportError_cases ht with hr | ⟨res, hr, hb⟩
    · subst hr
      exact ⟨rfl, rfl, rfl, rfl⟩
    · subst hr
      simp [fetchUserProfileCont, fetchLeaderboardCont, startMiningCont, watchAdCont, hb]
  · cases r with
    | failed => rfl
    | response res =>
      cases hb : res.body with
      | none => simp [startMiningCont, hb]
      | some data =>
        cases hm : (getProp data "message").toOption.bind toStrU with
        | none => simp [startMiningCont, hb, hm]
        | some m => simp [startMiningCont, hb, hm]
  · intro status status2 body
    exact ⟨rfl, rfl, rfl, rfl⟩
  · intro h
    cases r with
    | failed => rfl
    | response res =>
      cases hb : res.body with
      | none => simp [connectFails, hb]
      | some j =>
        rcases h with h | h
        · simp [transportError, hb] at h
        · have hok : res.ok = false := by simpa [non2xx] using h
          simp [connectFails, hb, hok]
  · intro h
    rcases transportError_cases h with hr | ⟨res, hr, hb⟩
    · subst hr
      rfl
    · subst hr
      simp [detailRenders, hb]

theorem failure_leaves_state_witness :
    (connectFails (.response (rejection 401 "Invalid proof")) = true ∧
      (transportError (.response ⟨502, none⟩) = true ∨
        non2xx (.response ⟨502, none⟩) = true) ∧
      transportError .failed = true) ∧
    ((connectPiCont "http://localhost:8000" connectedState
          (.response (rejection 401 "Invalid proof"))).1
        = { connectedState with
            msg := (connectPiCont "http://localhost:8000" connectedState
              (.response (rejection 401 "Invalid proof"))).1.msg }) ∧
    ((fetchMeCont connectedState (.response ⟨502, none⟩)).1
        = { connectedState with
            msg := (fetchMeCont connectedState (.response ⟨502, none⟩)).1.msg }) ∧
    (fetchLeaderboardCont shownPage .failed).1 = shownPage :=
  ⟨⟨rfl, Or.inl rfl, rfl⟩,
    ((failure_leaves_state "http://localhost:8000" (.str "old") connectedState shownPage
      (.response (rejection 401 "Invalid proof"))).1 rfl).1,
    ((failure_leaves_state "http://localhost:8000" (.str "old") connectedState shownPage
      (.response ⟨502, none⟩)).2.1 (Or.inl rfl)).1,
    ((failure_leaves_state "http://localhost:8000" (.str "old") connectedState shownPage
      .failed).2.2.2.2.1 rfl).2.1⟩

/-- C8, as stated, fails in the token variant: when `fetch` itself fails,
`connectPi` does not set the status message to any fixed message; the
message stays whatever it was before the call. -/
theorem connectPi_transport_error_sets_no_message :
    ¬ ∃ g : Json, ∀ s : AppState,
      (connectPiCont "http://localhost:8000" s .failed).1.msg = g := by
  rintro ⟨g, hg⟩
  have h1 : Json.str "" = g := hg anonymousState
  have h2 : Json.str "Connected" = g := hg connectedState
  have h3 : Json.str "" = Json.str "Connected" := h1.trans h2.symm
  injection h3 with h4
  revert h4
  decide

/-- C8 (amended): on a transport error (the fetch fails, or the body is not
JSON) each of `fetchUserProfile`, `fetchLeaderboard`, `startMining` and
`watchAd` logs its error to the console and does nothing else.  In the
token variant nothing catches the error: `connectPi`, `mine` and `viewAd`
leave the whole state, status message included, as it was and issue no
request; so does `fetchMe`, except that for a status that is not 2xx it
never reads the body and sets the message "Session invalid". -/
theorem transport_error_outcome (api : String) (tok : Json) (s : AppState) (d : Dom)
    (r : FetchResult) (h : transportError r = true) :
    (fetchUserProfileCont d r = (d, [.consoleError "Error fetching user profile:"]) ∧
      fetchLeaderboardCont d r = (d, [.consoleError "Error fetching leaderboard:"]) ∧
      startMiningCont d r = (d, [.consoleError "Error starting mining:"]) ∧
      watchAdCont d r = (d, [.consoleError "Error watching ad:"])) ∧
    (connectPiCont api s r = (s, []) ∧ mineCont api tok s r = (s, []) ∧
      viewAdCont api tok s r = (s, []) ∧
      fetchMeCont s r
        = if non2xx r = true then ({ s with msg := .str "Session invalid" }, []) else (s, [])) := by
  rcases transportError_cases h with hr | ⟨res, hr, hb⟩
  · subst hr
    exact ⟨⟨rfl, rfl, rfl, rfl⟩, rfl, rfl, rfl, rfl⟩
  · subst hr
    refine ⟨?_, ?_, ?_, ?_, ?_⟩
    · simp [fetchUserProfileCont, fetchLeaderboardCont, startMiningCont, watchAdCont, hb]
    · simp [connectPiCont, hb]
    · simp [mineCont, hb]
    · simp [viewAdCont, hb]
    · by_cases hok : res.ok = true
      · simp [fetchMeCont, non2xx, hok, hb]
      · simp [fetchMeCont, non2xx, hok]

theorem transport_error_outcome_witness :
    transportError .failed = true ∧
    (fetchUserProfileCont shownPage .failed
        = (shownPage, [.consoleError "Error fetching user profile:"]) ∧
      fetchLeaderboardCont shownPage .failed
        = (shownPage, [.consoleError "Error fetching leaderboard:"]) ∧
      startMiningCont shownPage .failed = (shownPage, [.consoleError "Error starting mining:"]) ∧
      watchAdCont shownPage .failed = (shownPage, [.consoleError "Error watching ad:"])) ∧
    connectPiCont "http://localhost:8000" connectedState .failed = (connectedState, []) :=
  ⟨rfl,
    (transport_error_outcome "http://localhost:8000" (.str "old") connectedState shownPage
      .failed rfl).1,
    (transport_error_outcome "http://localhost:8000" (.str "old") connectedState shownPage
      .failed rfl).2.1⟩

end PiPromise
